import Mathlib

/-!
# Verification of the `libsp` survey converter

Shallow embedding of the survey-to-CSV/R converter (package `libsp`):
`Survey.WriteCSV`, `Survey.WriteR` and their helpers (`csvCols`,
`getColType`, `colTypeWithScales`, `choiceScaleID`, `addScales`),
`Survey.ReadXML` with its element-extraction helpers,
`Survey.addDynamicChoices`, and `Response.AddAnswer` with its
regex-based answer-key normalization.

Machine integers are modelled as `Int`/`Nat` with explicit wrapping or
saturation where the Go behaviour depends on it.  Code paths that call
`log.Fatalf` (process exit) are modelled as `Option`/dedicated outcome
constructors, and the nil-pointer dereference in `ReadXML` is modelled
as an explicit `panic` outcome constructor.
-/

namespace Libsp

/-! ## Association lists modelling Go maps

Go map reads return the zero value for missing keys; writes insert or
replace.  `lookupA` returns an `Option`, `lookupD` applies the
zero-value default. -/

def lookupA {α : Type} (m : List (String × α)) (k : String) : Option α :=
  match m.find? (fun p => p.1 == k) with
  | some p => some p.2
  | none => none

def lookupD {α : Type} (m : List (String × α)) (k : String) (d : α) : α :=
  (lookupA m k).getD d

def insertA {α : Type} (m : List (String × α)) (k : String) (v : α) :
    List (String × α) :=
  if m.any (fun p => p.1 == k) then
    m.map (fun p => if p.1 == k then (k, v) else p)
  else
    m ++ [(k, v)]

/-! ## Bytes, hex, UTF-8, SHA-1

`choiceScaleID` in `survey.go` computes
`fmt.Sprintf("scale_%x", sha1.Sum([]byte(s)))`: the lowercase-hex SHA-1
digest of the UTF-8 bytes of the concatenated labels.  We implement
SHA-1 over `List Nat` (bytes) with explicit `% 2^32` wrapping. -/

def u32 (x : Nat) : Nat := x % 4294967296

def rotl32 (n x : Nat) : Nat := u32 (x <<< n) ||| (x >>> (32 - n))

def not32 (x : Nat) : Nat := 4294967295 - x

/-- UTF-8 encoding of one character (Go `[]byte(s)` on a string). -/
def utf8Bytes (c : Char) : List Nat :=
  let n := c.toNat
  if n < 128 then [n]
  else if n < 2048 then [192 ||| (n >>> 6), 128 ||| (n &&& 63)]
  else if n < 65536 then
    [224 ||| (n >>> 12), 128 ||| ((n >>> 6) &&& 63), 128 ||| (n &&& 63)]
  else
    [240 ||| (n >>> 18), 128 ||| ((n >>> 12) &&& 63),
      128 ||| ((n >>> 6) &&& 63), 128 ||| (n &&& 63)]

def strBytes (s : String) : List Nat :=
  (s.data.map utf8Bytes).flatten

/-- Big-endian bytes of a 64-bit length value. -/
def be64 (n : Nat) : List Nat :=
  [u32 0 + (n >>> 56) % 256, (n >>> 48) % 256, (n >>> 40) % 256,
    (n >>> 32) % 256, (n >>> 24) % 256, (n >>> 16) % 256,
    (n >>> 8) % 256, n % 256]

/-- SHA-1 message padding: `0x80`, zeros to 56 mod 64, 8-byte bit length. -/
def sha1Pad (msg : List Nat) : List Nat :=
  let z := (64 + 56 - ((msg.length + 1) % 64)) % 64
  msg ++ [128] ++ List.replicate z 0 ++ be64 (8 * msg.length)

def word32 (b0 b1 b2 b3 : Nat) : Nat :=
  b0 * 16777216 + b1 * 65536 + b2 * 256 + b3

/-- Split a 64-byte block into sixteen 32-bit big-endian words. -/
def blockWords : List Nat → List Nat
  | b0 :: b1 :: b2 :: b3 :: rest => word32 b0 b1 b2 b3 :: blockWords rest
  | _ => []

/-- Extend sixteen words to the eighty-word SHA-1 message schedule. -/
def sha1Schedule (w16 : List Nat) : List Nat :=
  (List.range 64).foldl
    (fun w _ =>
      let n := w.length
      w ++ [rotl32 1 ((w.getD (n - 3) 0) ^^^ (w.getD (n - 8) 0) ^^^
        (w.getD (n - 14) 0) ^^^ (w.getD (n - 16) 0))])
    w16

def sha1F (i b c d : Nat) : Nat :=
  if i < 20 then (b &&& c) ||| (not32 b &&& d)
  else if i < 40 then b ^^^ c ^^^ d
  else if i < 60 then (b &&& c) ||| (b &&& d) ||| (c &&& d)
  else b ^^^ c ^^^ d

def sha1K (i : Nat) : Nat :=
  if i < 20 then 1518500249
  else if i < 40 then 1859775393
  else if i < 60 then 2400959708
  else 3395469782

/-- Process one 64-byte block, updating the five-word state. -/
def sha1Block (h : Nat × Nat × Nat × Nat × Nat) (blk : List Nat) :
    Nat × Nat × Nat × Nat × Nat :=
  let w := sha1Schedule (blockWords blk)
  let (a, b, c, d, e) :=
    (w.zip (List.range 80)).foldl
      (fun (st : Nat × Nat × Nat × Nat × Nat) (wi : Nat × Nat) =>
        let (a, b, c, d, e) := st
        let t := u32 (rotl32 5 a + sha1F wi.2 b c d + e + sha1K wi.2 + wi.1)
        (t, a, rotl32 30 b, c, d))
      h
  let (h0, h1, h2, h3, h4) := h
  (u32 (h0 + a), u32 (h1 + b), u32 (h2 + c), u32 (h3 + d), u32 (h4 + e))

def chunk64 : List Nat → List (List Nat)
  | [] => []
  | a :: l => (a :: l).take 64 :: chunk64 ((a :: l).drop 64)
termination_by l => l.length
decreasing_by
  simp only [List.length_drop, List.length_cons]
  omega

/-- SHA-1 digest of a byte list, as 20 bytes. -/
def sha1Bytes (msg : List Nat) : List Nat :=
  let (h0, h1, h2, h3, h4) :=
    (chunk64 (sha1Pad msg)).foldl sha1Block
      (1732584193, 4023233417, 2562383102, 271733878, 3285377520)
  [h0 >>> 24 % 256, h0 >>> 16 % 256, h0 >>> 8 % 256, h0 % 256,
    h1 >>> 24 % 256, h1 >>> 16 % 256, h1 >>> 8 % 256, h1 % 256,
    h2 >>> 24 % 256, h2 >>> 16 % 256, h2 >>> 8 % 256, h2 % 256,
    h3 >>> 24 % 256, h3 >>> 16 % 256, h3 >>> 8 % 256, h3 % 256,
    h4 >>> 24 % 256, h4 >>> 16 % 256, h4 >>> 8 % 256, h4 % 256]

def hexDigit (n : Nat) : Char :=
  "0123456789abcdef".data.getD n '0'

/-- Lowercase hex rendering of a byte list (Go `%x` on a byte array). -/
def hexBytes (bs : List Nat) : String :=
  String.mk ((bs.map (fun b => [hexDigit (b / 16), hexDigit (b % 16)])).flatten)

/-! ## Go standard-library scalar conversions

`strconv.Atoi`, `strconv.ParseBool` and `time.Parse` with the fixed
layout `"2006-01-02 15:04:05"`, as used by `survey.go`.  The second
component of each result is `true` when the conversion succeeded.
`atoiGo` models a 64-bit platform: on range overflow Go's `Atoi`
returns the saturated extreme value together with an error. -/

def maxInt64 : Int := 9223372036854775807

def minInt64 : Int := -9223372036854775808

def digitsVal (ds : List Char) : Nat :=
  ds.foldl (fun n c => 10 * n + (c.toNat - 48)) 0

def atoiGo (s : String) : Int × Bool :=
  let (neg, ds) :=
    match s.data with
    | '-' :: rest => (true, rest)
    | '+' :: rest => (false, rest)
    | l => (false, l)
  if ds = [] ∨ ¬ ds.all Char.isDigit then (0, false)
  else
    let v : Int := if neg then -(digitsVal ds : Int) else (digitsVal ds : Int)
    if v > maxInt64 then (maxInt64, false)
    else if v < minInt64 then (minInt64, false)
    else (v, true)

def parseBoolGo (s : String) : Bool × Bool :=
  if s = "1" ∨ s = "t" ∨ s = "T" ∨ s = "true" ∨ s = "TRUE" ∨ s = "True" then
    (true, true)
  else if s = "0" ∨ s = "f" ∨ s = "F" ∨ s = "false" ∨ s = "FALSE" ∨ s = "False" then
    (false, true)
  else (false, false)

/-- Calendar timestamp modelling Go `time.Time` at second precision;
the zero `time.Time` is January 1 of year 1, 00:00:00. -/
structure GoTime where
  year : Nat
  month : Nat
  day : Nat
  hour : Nat
  minute : Nat
  second : Nat
deriving Repr, DecidableEq

def zeroTime : GoTime := ⟨1, 1, 1, 0, 0, 0⟩

def isLeapYear (y : Nat) : Bool :=
  (y % 4 = 0 ∧ y % 100 ≠ 0) ∨ y % 400 = 0

def daysInMonth (y m : Nat) : Nat :=
  if m = 2 then (if isLeapYear y then 29 else 28)
  else if m = 4 ∨ m = 6 ∨ m = 9 ∨ m = 11 then 30
  else 31

def twoDigits (a b : Char) : Option Nat :=
  if a.isDigit ∧ b.isDigit then some ((a.toNat - 48) * 10 + (b.toNat - 48))
  else none

/-- `time.Parse` with layout `"2006-01-02 15:04:05"`: fixed-width
numeric fields with range validation; any failure yields an error
(and the caller falls back to the zero time). -/
def timeParseGo (s : String) : Option GoTime :=
  match s.data with
  | [y1, y2, y3, y4, d1, m1, m2, d2, dd1, dd2, sp, h1, h2, c1, n1, n2, c2, s1, s2] =>
    if d1 = '-' ∧ d2 = '-' ∧ sp = ' ' ∧ c1 = ':' ∧ c2 = ':' then
      match twoDigits y1 y2, twoDigits y3 y4, twoDigits m1 m2,
          twoDigits dd1 dd2, twoDigits h1 h2, twoDigits n1 n2,
          twoDigits s1 s2 with
      | some yh, some yl, some mo, some da, some ho, some mi, some se =>
        let y := yh * 100 + yl
        if 1 ≤ mo ∧ mo ≤ 12 ∧ 1 ≤ da ∧ da ≤ daysInMonth y mo ∧
            ho ≤ 23 ∧ mi ≤ 59 ∧ se ≤ 59 then
          some ⟨y, mo, da, ho, mi, se⟩
        else none
      | _, _, _, _, _, _, _ => none
    else none
  | _ => none

def pad2 (n : Nat) : String :=
  if n < 10 then "0" ++ toString n else toString n

def pad4 (n : Nat) : String :=
  if n < 10 then "000" ++ toString n
  else if n < 100 then "00" ++ toString n
  else if n < 1000 then "0" ++ toString n
  else toString n

/-- `Time.Format` with the layout constant `timeFormat`. -/
def formatGoTime (t : GoTime) : String :=
  pad4 t.year ++ "-" ++ pad2 t.month ++ "-" ++ pad2 t.day ++ " " ++
    pad2 t.hour ++ ":" ++ pad2 t.minute ++ ":" ++ pad2 t.second

/-- Go `fmt.Sprintf("%t", b)`. -/
def goBool (b : Bool) : String := if b then "true" else "false"

/-- Go `fmt.Sprintf("%d", n)` for the modelled `int`. -/
def goInt (n : Int) : String := toString n

/-! ## Data model: `Choice`, `Question`, `Response`

`Choice` is from `survey.go`.  The `Question` type itself lives in a
file of the repository that is not part of the sources at hand (only
its callers in `survey.go` and the tests are), so its column contract
is modelled from the spec. -/

/-- `Choice` from `survey.go`: ID, label, variable name, free-text flag. -/
structure Choice where
  ID : String
  Label : String
  VarName : String
  HasText : Bool
deriving Repr, DecidableEq

/-- The closed variant set of question types (spec §4.2). -/
inductive QType where
  | SingleChoice
  | MultiSelect
  | Matrix
  | RankOrder
  | PickGroupRank
  | FixedScale
  | TextEntry
  | ConstantSum
  | EmbeddedData
  | Unsupported
deriving Repr, DecidableEq

/-- Modelled from the spec: the dynamic-choice reference carried by a
question — "source question ID + inheritance kind" (spec §3); the code
in `survey.go` reads `dynChoices.Source` and `dynChoices.Type`. -/
structure DynChoices where
  Source : String
  Type' : String
deriving Repr, DecidableEq

/-- `Response` from the response-model source file: fixed fields plus
the private normalized-key→value answer map. -/
structure Response where
  ID : String
  Progress : Int
  Duration : Int
  Finished : Bool
  RecordedOn : GoTime
  answers : List (String × String)
deriving Repr, DecidableEq

/-- Modelled from the spec: the `Question` type is declared in a file
missing from the sources (only `survey.go` and the tests use it).
Per spec §3/§4.2 a question carries its ID, type tag, ordered choices,
sub-questions, groups and optional dynamic-choice reference;
`CSVCols` is its deterministic export column list, `ResponseCols`
renders a response 1:1 against those columns, and `RColType` is the
import-script column-type keyword (`importType()` in the spec). -/
structure Question where
  ID : String
  qType : QType
  choices : List Choice
  subQuestions : List Choice
  groups : List String
  orderedChoices : Bool
  dynChoices : Option DynChoices
  CSVCols : List String
  ResponseCols : Response → List String
  RColType : String

/-- `NewResponse` initializes an empty response. -/
def NewResponse : Response :=
  ⟨"", 0, 0, false, zeroTime, []⟩

/-- `ResponseChoices` on `Question` (used by `colTypeWithScales`).
Modelled from the spec: the question's ordered Choices. -/
def Question.ResponseChoices (q : Question) : List Choice := q.choices

/-- `OrderedChoices` on `Question` (used by `colTypeWithScales`).
Modelled from the spec: the question's choice-ordering flag. -/
def Question.OrderedChoices (q : Question) : Bool := q.orderedChoices

/-! ## Answer-key normalization (`AddAnswer`)

The three regular expressions of the response model:

* `reQIDLoop = ^_\d+_(QID\d+.*)(-\d+)?`
* `reQIDDyn  = ^(QID\d+_)x(\d+)(_TEXT)?$`
* `reTimer   = _(CLICK|SUBMIT|COUNT)$`

Go's `regexp` uses leftmost-first (Perl-like) submatch semantics:
in `reQIDLoop` the greedy `.*` (which stops only at a newline)
consumes the whole tail, so the optional `(-\d+)` group always
matches empty, and submatch 1 is everything after the second `_`
up to the first newline.  In `reQIDDyn` every quantifier is forced
by the anchors and disjoint character classes, so the shape is
`QID<digits>_x<digits>` optionally followed by `_TEXT`. -/

/-- The part of `reQIDLoop` after `^_\d+`: a second `_` followed by
a stem starting `QID<digit>`; the submatch extends to the end of the
key (or the first newline, which `.` does not cross). -/
def matchLoopTail : List Char → Option (List Char)
  | [] => none
  | c2 :: stem =>
    if c2 ≠ '_' then none
    else if stem.take 3 = ['Q', 'I', 'D'] then
      if (stem.drop 3).takeWhile Char.isDigit = [] then none
      else some ('Q' :: 'I' :: 'D' :: (stem.drop 3).takeWhile (fun c => c ≠ '\n'))
    else none

/-- Submatch 1 of `reQIDLoop`, or `none` when the key does not match:
`_`, one or more digits, `_`, then a stem starting `QID<digit>`. -/
def matchLoop : List Char → Option (List Char)
  | [] => none
  | c :: r1 =>
    if c ≠ '_' then none
    else if r1.takeWhile Char.isDigit = [] then none
    else matchLoopTail (r1.dropWhile Char.isDigit)

/-- `reTimer.MatchString`: does the key end in `_CLICK`, `_SUBMIT`
or `_COUNT`? -/
def isTimerKey (m : List Char) : Bool :=
  "_CLICK".data.isSuffixOf m || "_SUBMIT".data.isSuffixOf m ||
    "_COUNT".data.isSuffixOf m

/-- The part of `reQIDDyn` after `^QID\d+` (the matched digits are
`ds1`): a literal `_`, the dropped `x`, more digits, then either the
end or a literal `_TEXT`. -/
def matchDynTail (ds1 : List Char) : List Char → Option (List Char)
  | c :: c2 :: r2 =>
    if c = '_' ∧ c2 = 'x' then
      if r2.takeWhile Char.isDigit = [] then none
      else
        let rem := r2.dropWhile Char.isDigit
        if rem = [] ∨ rem = ['_', 'T', 'E', 'X', 'T'] then
          some ('Q' :: 'I' :: 'D' :: (ds1 ++ '_' :: (r2.takeWhile Char.isDigit ++ rem)))
        else none
    else none
  | _ => none

/-- The rewritten key for `reQIDDyn` (submatches 1, 2 and 3
concatenated: the `x` dropped), or `none` when the key does not
match `^(QID\d+_)x(\d+)(_TEXT)?$`. -/
def matchDyn (k : List Char) : Option (List Char) :=
  if k.take 3 = ['Q', 'I', 'D'] then
    let r1 := k.drop 3
    if r1.takeWhile Char.isDigit = [] then none
    else matchDynTail (r1.takeWhile Char.isDigit) (r1.dropWhile Char.isDigit)
  else none

/-- The key rewriting performed at the top of `AddAnswer`: loop+merge
keys have their loop prefix stripped (unless the remainder is a timer
key); otherwise dynamic-choice keys have their `x` separator dropped;
all other keys pass through. -/
def normalizeKeyL (k : List Char) : List Char :=
  match matchLoop k with
  | some m => if isTimerKey m then k else m
  | none =>
    match matchDyn k with
    | some m => m
    | none => k

def normalizeKey (s : String) : String :=
  String.mk (normalizeKeyL s.data)

/-- `AddAnswer`: normalize the key, then `log.Fatalf` (modelled as
`none`) when the normalized key already holds a non-empty value and
the new value is non-empty; otherwise store the value. -/
def Response.AddAnswer (r : Response) (id answer : String) : Option Response :=
  let id1 := normalizeKey id
  if lookupD r.answers id1 "" ≠ "" ∧ answer ≠ "" then none
  else some { r with answers := insertA r.answers id1 answer }

/-! ## XML response reader (`ReadXML`)

An already-parsed XML document is a list of top-level elements, each
with a tag, its text content, and child elements (the `etree` view
used by `survey.go`).  `SelectElement` finds the first child with the
given tag; `ChildElements` lists all children. -/

structure XElem where
  tag : String
  text : String
  children : List XElem

def selectElement (name : String) (es : List XElem) : Option XElem :=
  es.find? (fun e => e.tag == name)

def getStringElement (name : String) (e : XElem) : String :=
  match selectElement name e.children with
  | some v => v.text
  | none => ""

def getIntElement (name : String) (e : XElem) : Int :=
  match selectElement name e.children with
  | some v => (atoiGo v.text).1
  | none => 0

def getBoolElement (name : String) (e : XElem) : Bool :=
  match selectElement name e.children with
  | some v => (parseBoolGo v.text).1
  | none => false

def getTimeElement (name : String) (e : XElem) : GoTime :=
  match selectElement name e.children with
  | some v =>
    match timeParseGo v.text with
    | some t => t
    | none => zeroTime
  | none => zeroTime

/-- Does `getIntElement` hit its `log.Printf`?  In the source the log
call sits inside the present-field (`v != nil`) branch, guarded by the
conversion error: a missing field is zeroed silently, and only a
failed `Atoi` of a present field logs. -/
def getIntElementLogs (name : String) (e : XElem) : Bool :=
  match selectElement name e.children with
  | some v => !(atoiGo v.text).2
  | none => false

/-- Does `getBoolElement` hit its `log.Printf`?  Same placement as
`getIntElement`: only a failed `ParseBool` of a present field logs. -/
def getBoolElementLogs (name : String) (e : XElem) : Bool :=
  match selectElement name e.children with
  | some v => !(parseBoolGo v.text).2
  | none => false

/-- Does `getTimeElement` hit its `log.Printf`?  Same placement: only
a failed `time.Parse` of a present field logs. -/
def getTimeElementLogs (name : String) (e : XElem) : Bool :=
  match selectElement name e.children with
  | some v => (timeParseGo v.text).isNone
  | none => false

/-- The answer loop of `ReadXML`: feed each child element's tag/text
through `AddAnswer`; a `log.Fatalf` inside `AddAnswer` (modelled as
`none`) stops everything. -/
def addAnswers (r : Response) : List XElem → Option Response
  | [] => some r
  | e :: es =>
    match r.AddAnswer e.tag e.text with
    | none => none
    | some r' => addAnswers r' es

/-- The per-element body of the `ReadXML` loop: extract the fixed
fields, then feed every child element's tag/text through `AddAnswer`. -/
def buildResponse (resp : XElem) : Option Response :=
  addAnswers
    { NewResponse with
      ID := getStringElement "_recordId" resp
      Progress := getIntElement "progress" resp
      Duration := getIntElement "duration" resp
      Finished := getBoolElement "finished" resp
      RecordedOn := getTimeElement "recordedDate" resp }
    resp.children

/-- Build one response per element, in document order. -/
def buildResponses : List XElem → Option (List Response)
  | [] => some []
  | e :: es =>
    match buildResponse e with
    | none => none
    | some r =>
      match buildResponses es with
      | none => none
      | some rs => some (r :: rs)

/-- Outcome of `ReadXML`: `panic` models the nil-pointer dereference
of `root.SelectElements` when no `Responses` root exists; `fatal`
models `log.Fatalf` from `AddAnswer`; `ok` carries the parsed
responses in document order. -/
inductive ReadResult where
  | panic
  | fatal
  | ok (rs : List Response)
deriving Repr, DecidableEq

/-- `ReadXML` over an already-parsed document (a list of top-level
elements): select the `Responses` root — dereferenced without a nil
check — then build one `Response` per `Response` child, in document
order. -/
def readXML (doc : List XElem) : ReadResult :=
  match selectElement "Responses" doc with
  | none => ReadResult.panic
  | some root =>
    match buildResponses (root.children.filter (fun e => e.tag == "Response")) with
    | none => ReadResult.fatal
    | some rs => ReadResult.ok rs

/-! ## `Survey`, CSV export, R-script generation -/

/-- `Survey` restricted to the fields the export paths read:
`QuestionOrder`, the `Questions` map and the ordered `Responses`.
The Go `Questions` field is a map whose lookups the export code
dereferences unconditionally; per the parse invariant (spec §3) every
ordered ID is present, so the map is modelled as a total function. -/
structure Survey where
  QuestionOrder : List String
  Questions : String → Question
  Responses : List Response

/-- `csvCols`: the header — five fixed columns then each question's
columns in `QuestionOrder`. -/
def Survey.csvCols (s : Survey) : List String :=
  s.QuestionOrder.foldl
    (fun cols id => cols ++ (s.Questions id).CSVCols)
    ["id", "finished", "progress", "duration", "recorded"]

/-- The cell rows written by `WriteCSV` (the `csv.Writer` quoting layer
is the standard library; a row is its list of cells). -/
def Survey.writeCSVRows (s : Survey) : List (List String) :=
  s.Responses.map (fun r =>
    s.QuestionOrder.foldl
      (fun row id => row ++ (s.Questions id).ResponseCols r)
      [r.ID, goBool r.Finished, goInt r.Progress, goInt r.Duration,
        formatGoTime r.RecordedOn])

/-- `strings.HasSuffix`, on the underlying character lists (so it
evaluates by kernel reduction). -/
def endsWithS (s sfx : String) : Bool :=
  sfx.data.isSuffixOf s.data

/-- `getColType`: the R column type for one column, plus the
is-rank-column flag. -/
def getColType (colID : String) (q : Question) : String × Bool :=
  if q.qType = QType.RankOrder then
    if endsWithS colID "_text" then ("", false) else ("col_factor()", true)
  else if endsWithS colID "_text" then ("", false)
  else if endsWithS colID "_RANK" then ("col_factor()", true)
  else if endsWithS colID "_first_click" ∨ endsWithS colID "_last_click" ∨
      endsWithS colID "_page_submit" then ("col_double()", false)
  else if endsWithS colID "click_count" then ("col_integer()", false)
  else (q.RColType, false)

def noResponseConst : String := "No response"

def notGrouped : String := "Not grouped"

def addNotGroupedOption (choices : List Choice) : List Choice :=
  if choices.any (fun c => c.Label == notGrouped) then choices
  else choices ++ [{ ID := "", Label := notGrouped, VarName := "", HasText := false }]

def addNoResponseOption (choices : List Choice) : List Choice :=
  if choices.any (fun c => c.Label == noResponseConst) then choices
  else choices ++ [{ ID := "", Label := noResponseConst, VarName := "", HasText := false }]

/-- The concatenation loop inside `choiceScaleID`. -/
def concatLabels (choices : List Choice) : String :=
  choices.foldl (fun s c => s ++ c.Label) ""

/-- `choiceScaleID`: `fmt.Sprintf("scale_%x", sha1.Sum([]byte(s)))`
over the concatenated ordered labels. -/
def choiceScaleID (choices : List Choice) : String :=
  "scale_" ++ hexBytes (sha1Bytes (strBytes (concatLabels choices)))

/-- `colTypeWithScales`: compute the factor clause for a categorical
column, registering its (augmented) level set in the scale map keyed
by `choiceScaleID`.  The Go map argument is mutated in place; here the
updated map is returned. -/
def colTypeWithScales (q : Question) (isRankCol : Bool)
    (choiceScales : List (String × List Choice)) :
    String × List (String × List Choice) :=
  let (choices, ordered) :=
    if q.qType = QType.PickGroupRank ∨ q.qType = QType.RankOrder then
      if isRankCol then
        (((List.range q.ResponseChoices.length).map (fun i =>
          ({ ID := "", Label := toString (i + 1), VarName := "", HasText := false } : Choice))),
          true)
      else
        ((q.groups.map (fun g =>
          ({ ID := "", Label := g, VarName := "", HasText := false } : Choice))), false)
    else (q.ResponseChoices, q.OrderedChoices)
  if choices.length > 0 then
    let choices1 := if q.qType = QType.PickGroupRank then addNotGroupedOption choices else choices
    let choices2 := addNoResponseOption choices1
    let scaleID := choiceScaleID choices2
    let scales' :=
      if (lookupA choiceScales scaleID).isSome then choiceScales
      else choiceScales ++ [(scaleID, choices2)]
    let oString := if ordered then ", ordered = TRUE" else ""
    ("col_factor(levels = " ++ scaleID ++ oString ++ ")", scales')
  else ("col_factor()", choiceScales)

/-- One column of the `WriteR` loop: emit a `(columnID, columnType)`
clause when `getColType` is non-empty, resolving `col_factor()`
through `colTypeWithScales`. -/
def writeRCol (q : Question)
    (acc : List (String × String) × List (String × List Choice))
    (colID : String) :
    List (String × String) × List (String × List Choice) :=
  let rColType := (getColType colID q).1
  let isRankCol := (getColType colID q).2
  if rColType ≠ "" then
    if rColType = "col_factor()" then
      let res := colTypeWithScales q isRankCol acc.2
      (acc.1 ++ [(colID, res.1)], res.2)
    else
      (acc.1 ++ [(colID, rColType)], acc.2)
  else acc

/-- One question of the `WriteR` loop: all of its CSV columns. -/
def writeRQuestion (s : Survey)
    (acc : List (String × String) × List (String × List Choice))
    (id : String) :
    List (String × String) × List (String × List Choice) :=
  (s.Questions id).CSVCols.foldl (writeRCol (s.Questions id)) acc

/-- The column-clause/scale-map accumulation of the `WriteR` loop over
`QuestionOrder`. -/
def Survey.writeRState (s : Survey) :
    List (String × String) × List (String × List Choice) :=
  s.QuestionOrder.foldl (writeRQuestion s) ([], [])

/-- The emitted column-type clauses of the generated script, in order. -/
def Survey.writeRClauses (s : Survey) : List (String × String) :=
  s.writeRState.1

/-- The scale map accumulated by the `WriteR` loop. -/
def Survey.writeRScales (s : Survey) : List (String × List Choice) :=
  s.writeRState.2

def insertSorted (x : String) : List String → List String
  | [] => [x]
  | y :: ys => if x ≤ y then x :: y :: ys else y :: insertSorted x ys

/-- `sort.Strings`: lexicographic sort of the declaration lines. -/
def sortStrings (l : List String) : List String :=
  l.foldr insertSorted []

/-- One `<id> <- c("...", ...)` scale declaration line of `addScales`
(variable names fall back to labels). -/
def scaleLine (id : String) (scale : List Choice) : String :=
  id ++ " <- c(" ++
    String.intercalate ", "
      (scale.map (fun c =>
        "\x22" ++ (if c.VarName = "" then c.Label else c.VarName) ++ "\x22")) ++
    ")\n"

/-- `addScales`: one declaration line per scale-map entry, sorted. -/
def addScales (choiceScales : List (String × List Choice)) : List String :=
  sortStrings (choiceScales.map (fun p => scaleLine p.1 p.2))

/-- `addCleanup`: `rm(input_path)` then one `rm(<scale>)` per scale,
sorted by name. -/
def addCleanup (choiceScales : List (String × List Choice)) : List String :=
  "rm(input_path)\n" ::
    (sortStrings (choiceScales.map (fun p => p.1))).map (fun s => "rm(" ++ s ++ ")\n")

/-! ## Dynamic-choice resolution (`addDynamicChoices`) -/

def updateQ (qs : String → Question) (id : String) (q : Question) :
    String → Question :=
  fun x => if x = id then q else qs x

/-- One iteration of the `addDynamicChoices` loop, for question `qid`:
displayed/selected dynamic choices are backfilled from the source
question — choices (with the ordering flag) when the question has
none, and, independently, sub-questions when it has none.  Other
dynamic-choice kinds are left untouched. -/
def addDynamicChoicesStep (qs : String → Question) (qid : String) :
    String → Question :=
  let q := qs qid
  match q.dynChoices with
  | none => qs
  | some dc =>
    if dc.Type' = "DisplayedChoices" ∨ dc.Type' = "SelectedChoices" then
      let src := qs dc.Source
      let q1 :=
        if q.choices.length = 0 then
          { q with choices := src.choices, orderedChoices := src.orderedChoices }
        else q
      let q2 :=
        if q1.subQuestions.length = 0 then
          { q1 with subQuestions := src.subQuestions }
        else q1
      updateQ qs qid q2
    else qs

/-- `addDynamicChoices`: run the backfill over `QuestionOrder`,
mutating the question map in place (modelled as a fold). -/
def Survey.addDynamicChoices (s : Survey) : Survey :=
  { s with Questions := s.QuestionOrder.foldl addDynamicChoicesStep s.Questions }

/-! ## Claim C1 -/

def q1C : Question :=
  ⟨"QID1", QType.SingleChoice, [], [], [], false, none, ["Q1"], fun _ => ["a"], "col_factor()"⟩

def r1C : Response := ⟨"R_X", 100, 50, true, ⟨2019, 7, 5, 11, 9, 22⟩, []⟩

def s1C : Survey := ⟨["QID1"], fun _ => q1C, [r1C]⟩

/-- C1: evaluated at a one-question, one-response survey.  The header
has **five** fixed columns — `id,finished,progress,duration,recorded`
— so its length is `5 + Σ|columns|`, not `4 + Σ|columns|` as the
claim (and the repository's own `TestWriteCSV`) state; the fifth
header cell `recorded` is not a question column, and each data row
carries the same five fixed cells. -/
theorem writeCSV_recorded_column :
    s1C.csvCols = ["id", "finished", "progress", "duration", "recorded", "Q1"] ∧
    s1C.csvCols.length ≠
      4 + ((s1C.QuestionOrder.map (fun id => (s1C.Questions id).CSVCols.length)).sum) ∧
    s1C.csvCols.getD 4 "" = "recorded" ∧
    s1C.writeCSVRows = [["R_X", "true", "100", "50", "2019-07-05 11:09:22", "a"]] ∧
    (s1C.writeCSVRows.map List.length) = [s1C.csvCols.length] :=
  ⟨rfl, by decide, rfl, by decide, by decide⟩

/-! ## General lemmas -/

theorem foldl_append_eq {α β : Type} (f : α → List β) (l : List α) (init : List β) :
    l.foldl (fun acc x => acc ++ f x) init = init ++ (l.map f).flatten := by
  induction l generalizing init with
  | nil => simp
  | cons x xs ih => simp [ih, List.append_assoc]

theorem find?_map_replace {α : Type} (k : String) (v : α) :
    ∀ m : List (String × α), m.any (fun p => p.1 == k) = true →
      (m.map (fun p => if p.1 == k then (k, v) else p)).find?
        (fun p => p.1 == k) = some (k, v)
  | [], h => by simp at h
  | p :: m, h => by
    by_cases hp : (p.1 == k) = true
    · have hf : (if p.1 == k then (k, v) else p) = (k, v) := by simp [hp]
      rw [List.map_cons, hf, List.find?_cons_of_pos _ (by simp)]
    · have hm : m.any (fun p => p.1 == k) = true := by
        simpa [List.any_cons, hp] using h
      have hf : (if p.1 == k then (k, v) else p) = p := by simp [hp]
      have hp' : (p.1 == k) = false := by simpa using hp
      rw [List.map_cons, hf, List.find?_cons, hp']
      exact find?_map_replace k v m hm

theorem find?_append_single {α : Type} (k : String) (v : α) (m : List (String × α))
    (h : m.any (fun p => p.1 == k) = false) :
    (m ++ [(k, v)]).find? (fun p => p.1 == k) = some (k, v) := by
  rw [List.find?_append]
  have hnone : m.find? (fun p => p.1 == k) = none := by
    cases hfind : m.find? (fun p => p.1 == k) with
    | none => rfl
    | some x =>
      exfalso
      have hmem := List.mem_of_find?_eq_some hfind
      have hpred := List.find?_some hfind
      have hany : m.any (fun p => p.1 == k) = true :=
        List.any_eq_true.mpr ⟨x, hmem, hpred⟩
      rw [h] at hany
      exact Bool.false_ne_true hany
  rw [hnone, List.find?_cons_of_pos _ (by simp)]
  rfl

theorem lookupA_insertA {α : Type} (m : List (String × α)) (k : String) (v : α) :
    lookupA (insertA m k v) k = some v := by
  by_cases h : m.any (fun p => p.1 == k)
  · simp only [insertA, h, if_true, lookupA, find?_map_replace k v m h]
  · rw [Bool.not_eq_true] at h
    simp only [insertA, h, Bool.false_eq_true, if_false, lookupA,
      find?_append_single k v m h]

/-! ## Claim C6 -/

theorem writeRCol_fst_map (q : Question)
    (acc : List (String × String) × List (String × List Choice)) (colID : String) :
    (writeRCol q acc colID).1.map Prod.fst =
      acc.1.map Prod.fst ++ (if (getColType colID q).1 = "" then [] else [colID]) := by
  unfold writeRCol
  by_cases h : (getColType colID q).1 = ""
  · rw [if_neg (by simpa using h), if_pos h]
    simp
  · rw [if_pos h, if_neg h]
    by_cases h2 : (getColType colID q).1 = "col_factor()"
    · rw [if_pos h2]
      simp
    · rw [if_neg h2]
      simp

theorem writeRCols_fst_map (q : Question) : ∀ (cols : List String)
    (acc : List (String × String) × List (String × List Choice)),
    (cols.foldl (writeRCol q) acc).1.map Prod.fst =
      acc.1.map Prod.fst ++ cols.filter (fun colID => !((getColType colID q).1 == ""))
  | [], acc => by simp
  | c :: cs, acc => by
    rw [List.foldl_cons, writeRCols_fst_map q cs (writeRCol q acc c),
      writeRCol_fst_map]
    by_cases h : (getColType c q).1 = ""
    · simp [List.filter_cons, h]
    · simp [List.filter_cons, h]

theorem foldl_writeRQuestion (s : Survey) : ∀ (order : List String)
    (acc : List (String × String) × List (String × List Choice)),
    ((order.foldl (writeRQuestion s) acc).1).map Prod.fst =
      acc.1.map Prod.fst ++
        (order.map (fun id => (s.Questions id).CSVCols.filter
          (fun colID => !((getColType colID (s.Questions id)).1 == "")))).flatten
  | [], acc => by simp
  | id :: rest, acc => by
    rw [List.foldl_cons, foldl_writeRQuestion s rest (writeRQuestion s acc id)]
    unfold writeRQuestion
    rw [writeRCols_fst_map]
    simp [List.append_assoc]

/-- C6 (amended): the generated script has one column-type clause per
exported question column **whose column type is non-`""`** — every
`_text`-suffixed column (and any other column `getColType` maps to the
empty type) is skipped — and these clauses appear in exactly the CSV
header's question-column order. -/
theorem writeR_clauses_match_header (s : Survey) :
    s.writeRClauses.map Prod.fst =
      (s.QuestionOrder.map (fun id =>
        (s.Questions id).CSVCols.filter
          (fun colID => !((getColType colID (s.Questions id)).1 == "")))).flatten ∧
    s.csvCols = ["id", "finished", "progress", "duration", "recorded"] ++
      (s.QuestionOrder.map (fun id => (s.Questions id).CSVCols)).flatten := by
  constructor
  · unfold Survey.writeRClauses Survey.writeRState
    rw [foldl_writeRQuestion]
    simp
  · unfold Survey.csvCols
    rw [foldl_append_eq]

def qText : Question :=
  ⟨"QID7", QType.TextEntry, [], [], [], false, none, ["Q7_text"], fun _ => [""], ""⟩

def sText : Survey := ⟨["QID7"], fun _ => qText, []⟩

/-- C6 (counterexample): a question exporting the free-text column
`Q7_text` appears in the CSV header but yields **no** column-type
clause in the script — refuting "one clause per exported question
column". -/
theorem writeR_skips_text_columns :
    sText.csvCols.drop 5 = ["Q7_text"] ∧
    sText.writeRClauses = [] :=
  ⟨rfl, rfl⟩

/-! ## Claim C5 -/

/-- A single-choice question exporting one categorical column.
Column list and renderer are modelled from the spec ("a single column
for single-choice"). -/
def scQuestion (id col : String) (cs : List Choice) : Question :=
  ⟨id, QType.SingleChoice, cs, [], [], false, none, [col], fun _ => [""], "col_factor()"⟩

/-- A survey of two single-choice questions with choice lists `c1`
and `c2`. -/
def twoScaleSurvey (c1 c2 : List Choice) : Survey :=
  ⟨["QID1", "QID2"],
    fun id => if id = "QID1" then scQuestion "QID1" "Q1" c1 else scQuestion "QID2" "Q2" c2,
    []⟩

theorem writeRCol_single_choice (id col : String) (cs : List Choice)
    (hne : cs ≠ [])
    (hg : getColType col (scQuestion id col cs) = ("col_factor()", false))
    (acc : List (String × String) × List (String × List Choice)) :
    writeRCol (scQuestion id col cs) acc col =
      (acc.1 ++ [(col, "col_factor(levels = " ++
          choiceScaleID (addNoResponseOption cs) ++ ")")],
        if (lookupA acc.2 (choiceScaleID (addNoResponseOption cs))).isSome then acc.2
        else acc.2 ++ [(choiceScaleID (addNoResponseOption cs), addNoResponseOption cs)]) := by
  unfold writeRCol
  rw [hg]
  rw [if_pos (by decide), if_pos rfl]
  unfold colTypeWithScales
  rw [if_neg (by simp [scQuestion])]
  simp only [scQuestion, Question.ResponseChoices, Question.OrderedChoices]
  rw [if_pos (List.length_pos.mpr hne)]
  rw [if_neg (by simp)]
  simp [String.append_empty]

theorem twoScaleSurvey_state (c1 c2 : List Choice)
    (h : concatLabels (addNoResponseOption c1) = concatLabels (addNoResponseOption c2))
    (h1 : c1 ≠ []) (h2 : c2 ≠ []) :
    (twoScaleSurvey c1 c2).writeRState =
      ([("Q1", "col_factor(levels = " ++ choiceScaleID (addNoResponseOption c1) ++ ")"),
        ("Q2", "col_factor(levels = " ++ choiceScaleID (addNoResponseOption c1) ++ ")")],
       [(choiceScaleID (addNoResponseOption c1), addNoResponseOption c1)]) := by
  have hsid : choiceScaleID (addNoResponseOption c2) =
      choiceScaleID (addNoResponseOption c1) := by
    unfold choiceScaleID
    rw [h]
  have hq1 : (twoScaleSurvey c1 c2).Questions "QID1" = scQuestion "QID1" "Q1" c1 := rfl
  have hq2 : (twoScaleSurvey c1 c2).Questions "QID2" = scQuestion "QID2" "Q2" c2 := rfl
  have hc1 : (scQuestion "QID1" "Q1" c1).CSVCols = ["Q1"] := rfl
  have hc2 : (scQuestion "QID2" "Q2" c2).CSVCols = ["Q2"] := rfl
  show (["QID1", "QID2"].foldl (writeRQuestion (twoScaleSurvey c1 c2)) ([], [])) = _
  rw [List.foldl_cons, List.foldl_cons, List.foldl_nil]
  unfold writeRQuestion
  rw [hq1, hq2, hc1, hc2]
  rw [List.foldl_cons, List.foldl_nil, List.foldl_cons, List.foldl_nil]
  rw [writeRCol_single_choice "QID1" "Q1" c1 h1 rfl,
    writeRCol_single_choice "QID2" "Q2" c2 h2 rfl]
  rw [hsid]
  simp [lookupA]

/-- C5 (amended): in the two-question survey, whenever the two
(augmented) ordered label lists have byte-identical **concatenations**
— in particular whenever the label sequences are byte-identical — the
script holds exactly one scale declaration, named by the content hash
of that concatenation, and both columns' `col_factor` clauses
reference it. -/
theorem writeR_scale_dedup (c1 c2 : List Choice)
    (h : concatLabels (addNoResponseOption c1) = concatLabels (addNoResponseOption c2))
    (h1 : c1 ≠ []) (h2 : c2 ≠ []) :
    (twoScaleSurvey c1 c2).writeRClauses =
      [("Q1", "col_factor(levels = " ++ choiceScaleID (addNoResponseOption c1) ++ ")"),
       ("Q2", "col_factor(levels = " ++ choiceScaleID (addNoResponseOption c1) ++ ")")] ∧
    (twoScaleSurvey c1 c2).writeRScales =
      [(choiceScaleID (addNoResponseOption c1), addNoResponseOption c1)] ∧
    addScales (twoScaleSurvey c1 c2).writeRScales =
      [scaleLine (choiceScaleID (addNoResponseOption c1)) (addNoResponseOption c1)] := by
  have hstate := twoScaleSurvey_state c1 c2 h h1 h2
  refine ⟨?_, ?_, ?_⟩
  · unfold Survey.writeRClauses
    rw [hstate]
  · unfold Survey.writeRScales
    rw [hstate]
  · unfold Survey.writeRScales
    rw [hstate]
    rfl

def cAB : List Choice := [⟨"1", "AB", "", false⟩, ⟨"2", "C", "", false⟩]

def cABC : List Choice := [⟨"1", "A", "", false⟩, ⟨"2", "BC", "", false⟩]

/-- C5 (counterexample): the label sequences `["AB","C"]` and
`["A","BC"]` differ in content, yet — because the scale name hashes
the *concatenation* of the labels, which is `ABCNo response` for both
— the script holds a single scale declaration referenced by both
columns, not the two distinct declarations the claim requires. -/
theorem writeR_scale_collision :
    cAB.map Choice.Label ≠ cABC.map Choice.Label ∧
    (twoScaleSurvey cAB cABC).writeRScales =
      [(choiceScaleID (addNoResponseOption cAB), addNoResponseOption cAB)] ∧
    (twoScaleSurvey cAB cABC).writeRClauses.map Prod.snd =
      ["col_factor(levels = " ++ choiceScaleID (addNoResponseOption cAB) ++ ")",
       "col_factor(levels = " ++ choiceScaleID (addNoResponseOption cAB) ++ ")"] ∧
    (addScales (twoScaleSurvey cAB cABC).writeRScales).length = 1 := by
  have hstate := twoScaleSurvey_state cAB cABC (by decide) (by decide) (by decide)
  refine ⟨by decide, ?_, ?_, ?_⟩
  · unfold Survey.writeRScales
    rw [hstate]
  · unfold Survey.writeRClauses
    rw [hstate]
    rfl
  · unfold Survey.writeRScales
    rw [hstate]
    rfl

def cScaleW : List Choice := [⟨"1", "A", "", false⟩, ⟨"2", "B", "", false⟩]

/-- Witness for the amended C5 at two questions sharing the label
sequence `["A","B"]`. -/
theorem writeR_scale_dedup_witness :
    (twoScaleSurvey cScaleW cScaleW).writeRClauses =
      [("Q1", "col_factor(levels = " ++ choiceScaleID (addNoResponseOption cScaleW) ++ ")"),
       ("Q2", "col_factor(levels = " ++ choiceScaleID (addNoResponseOption cScaleW) ++ ")")] ∧
    (twoScaleSurvey cScaleW cScaleW).writeRScales =
      [(choiceScaleID (addNoResponseOption cScaleW), addNoResponseOption cScaleW)] ∧
    addScales (twoScaleSurvey cScaleW cScaleW).writeRScales =
      [scaleLine (choiceScaleID (addNoResponseOption cScaleW)) (addNoResponseOption cScaleW)] :=
  writeR_scale_dedup cScaleW cScaleW rfl (by decide) (by decide)

/-! ## Claim C2 -/

/-- C2: the loop-iteration rewrite evaluated at the raw key
`_1_QID5-2`.  The claim says the trailing `-2` is dropped along with
the loop prefix, yielding `QID5`; the code's greedy `.*` keeps it, so
`AddAnswer` stores the key `QID5-2`.  (Timer keys are preserved whole,
as the claim states.) -/
theorem addAnswer_loop_key_keeps_suffix :
    Response.AddAnswer NewResponse "_1_QID5-2" "v" =
      some { NewResponse with answers := [("QID5-2", "v")] } ∧
    normalizeKey "_1_QID5-2" = "QID5-2" ∧
    ("QID5-2" : String) ≠ "QID5" ∧
    normalizeKey "_1_QID16_PAGE_SUBMIT" = "_1_QID16_PAGE_SUBMIT" := by
  refine ⟨by decide, by decide, by decide, by decide⟩

/-! ## Claim C3 -/

/-- C3: adding a non-empty value for a key whose normalized form
already holds a non-empty value is the fatal integrity stop
(`log.Fatalf`, modelled as `none`): processing halts and nothing is
overwritten. -/
theorem addAnswer_nonempty_collision_fatal (r : Response) (id answer : String)
    (h1 : lookupD r.answers (normalizeKey id) "" ≠ "")
    (h2 : answer ≠ "") :
    r.AddAnswer id answer = none := by
  simp only [Response.AddAnswer]
  rw [if_pos ⟨h1, h2⟩]

def rColl : Response := { NewResponse with answers := [("QID7", "x")] }

/-- Witness for C3 at a concrete response. -/
theorem addAnswer_nonempty_collision_fatal_witness :
    lookupD rColl.answers (normalizeKey "QID7") "" ≠ "" ∧
    ("y" : String) ≠ "" ∧
    rColl.AddAnswer "QID7" "y" = none :=
  ⟨by decide, by decide,
    addAnswer_nonempty_collision_fatal rColl "QID7" "y" (by decide) (by decide)⟩

/-! ## Claim C9 -/

/-- C9: adding an **empty** value for a key whose normalized form
already holds a non-empty value silently replaces the stored value
with the empty string — no error, no report. -/
theorem addAnswer_empty_replaces (r : Response) (id : String)
    (_h : lookupD r.answers (normalizeKey id) "" ≠ "") :
    r.AddAnswer id "" =
      some { r with answers := insertA r.answers (normalizeKey id) "" } ∧
    lookupD (insertA r.answers (normalizeKey id) "") (normalizeKey id) "" = "" := by
  constructor
  · simp only [Response.AddAnswer]
    rw [if_neg]
    simp
  · simp [lookupD, lookupA_insertA]

def rEmptyW : Response := { NewResponse with answers := [("QID9", "x")] }

/-- Witness for C9 at a concrete response holding `"x"` for `QID9`. -/
theorem addAnswer_empty_replaces_witness :
    lookupD rEmptyW.answers (normalizeKey "QID9") "" ≠ "" ∧
    (rEmptyW.AddAnswer "QID9" "" =
      some { rEmptyW with answers := insertA rEmptyW.answers (normalizeKey "QID9") "" } ∧
    lookupD (insertA rEmptyW.answers (normalizeKey "QID9") "") (normalizeKey "QID9") "" = "") :=
  ⟨by decide, addAnswer_empty_replaces rEmptyW "QID9" (by decide)⟩

/-! ## Claim C4 -/

theorem matchLoop_cons_none {c : Char} {t : List Char} (h : c ≠ '_') :
    matchLoop (c :: t) = none := by
  simp [matchLoop, h]

theorem matchLoop_some_shape {k m : List Char} (h : matchLoop k = some m) :
    ∃ t, m = 'Q' :: 'I' :: 'D' :: t := by
  rcases k with _ | ⟨c, r1⟩
  · simp [matchLoop] at h
  · simp only [matchLoop] at h
    by_cases h1 : c ≠ '_'
    · rw [if_pos h1] at h
      exact absurd h (by simp)
    · rw [if_neg h1] at h
      by_cases h2 : r1.takeWhile Char.isDigit = []
      · rw [if_pos h2] at h
        exact absurd h (by simp)
      · rw [if_neg h2] at h
        rcases hdw : r1.dropWhile Char.isDigit with _ | ⟨c2, stem⟩ <;> rw [hdw] at h
        · exact absurd h (by simp [matchLoopTail])
        · simp only [matchLoopTail] at h
          by_cases h3 : c2 ≠ '_'
          · rw [if_pos h3] at h
            exact absurd h (by simp)
          · rw [if_neg h3] at h
            by_cases h4 : stem.take 3 = ['Q', 'I', 'D']
            · rw [if_pos h4] at h
              by_cases h5 : (stem.drop 3).takeWhile Char.isDigit = []
              · rw [if_pos h5] at h
                exact absurd h (by simp)
              · rw [if_neg h5] at h
                exact ⟨_, (Option.some.inj h).symm⟩
            · rw [if_neg h4] at h
              exact absurd h (by simp)

theorem matchDyn_some_shape {k m : List Char} (h : matchDyn k = some m) :
    ∃ ds1 ds2 rem, m = 'Q' :: 'I' :: 'D' :: (ds1 ++ '_' :: (ds2 ++ rem)) ∧
      ds1 ≠ [] ∧ (∀ c ∈ ds1, c.isDigit = true) ∧
      ds2 ≠ [] ∧ (∀ c ∈ ds2, c.isDigit = true) := by
  unfold matchDyn at h
  by_cases h1 : k.take 3 = ['Q', 'I', 'D']
  · rw [if_pos h1] at h
    by_cases h2 : (k.drop 3).takeWhile Char.isDigit = []
    · rw [if_pos h2] at h
      exact absurd h (by simp)
    · rw [if_neg h2] at h
      rcases hdw : (k.drop 3).dropWhile Char.isDigit with _ | ⟨c, r⟩ <;> rw [hdw] at h
      · exact absurd h (by simp [matchDynTail])
      · rcases r with _ | ⟨c2, r2⟩
        · exact absurd h (by simp [matchDynTail])
        · simp only [matchDynTail] at h
          by_cases h3 : c = '_' ∧ c2 = 'x'
          · rw [if_pos h3] at h
            by_cases h4 : r2.takeWhile Char.isDigit = []
            · rw [if_pos h4] at h
              exact absurd h (by simp)
            · rw [if_neg h4] at h
              by_cases h5 : r2.dropWhile Char.isDigit = [] ∨
                  r2.dropWhile Char.isDigit = ['_', 'T', 'E', 'X', 'T']
              · rw [if_pos h5] at h
                refine ⟨(k.drop 3).takeWhile Char.isDigit, r2.takeWhile Char.isDigit,
                  r2.dropWhile Char.isDigit, (Option.some.inj h).symm, h2, ?_, h4, ?_⟩
                · intro x hx
                  exact List.mem_takeWhile_imp hx
                · intro x hx
                  exact List.mem_takeWhile_imp hx
              · rw [if_neg h5] at h
                exact absurd h (by simp)
          · rw [if_neg h3] at h
            exact absurd h (by simp)
  · rw [if_neg h1] at h
    exact absurd h (by simp)

/-- The dynamic-choice rewrite's output never matches `reQIDDyn`
again: after `QID<ds1>_` the next character is a digit, not `x`. -/
theorem matchDyn_output_fixed (ds1 ds2 rem : List Char)
    (h1 : ds1 ≠ []) (hd1 : ∀ c ∈ ds1, c.isDigit = true)
    (h2 : ds2 ≠ []) (hd2 : ∀ c ∈ ds2, c.isDigit = true) :
    matchDyn ('Q' :: 'I' :: 'D' :: (ds1 ++ '_' :: (ds2 ++ rem))) = none := by
  unfold matchDyn
  rw [if_pos (by rfl)]
  have hdrop : ('Q' :: 'I' :: 'D' :: (ds1 ++ '_' :: (ds2 ++ rem))).drop 3 =
      ds1 ++ '_' :: (ds2 ++ rem) := rfl
  have htw : (ds1 ++ '_' :: (ds2 ++ rem)).takeWhile Char.isDigit = ds1 := by
    rw [List.takeWhile_append_of_pos hd1,
      List.takeWhile_cons_of_neg (by decide)]
    simp
  have hdw : (ds1 ++ '_' :: (ds2 ++ rem)).dropWhile Char.isDigit =
      '_' :: (ds2 ++ rem) := by
    rw [List.dropWhile_append_of_pos hd1,
      List.dropWhile_cons_of_neg (by decide)]
  simp only [hdrop, htw, hdw]
  rw [if_neg h1]
  rcases hds2 : ds2 with _ | ⟨d, ds2t⟩
  · exact absurd hds2 h2
  · have hdig : d.isDigit = true := hd2 d (by rw [hds2]; exact List.mem_cons_self d ds2t)
    have hdx : ¬(True ∧ d = 'x') := by
      rintro ⟨-, rfl⟩
      simp at hdig
    simp only [List.cons_append, matchDynTail]
    rw [if_neg hdx]

/-- The exception set of the amended C4: a key is *loop-stem-safe*
when it is not a loop-iteration key whose (non-timer) rewritten stem
is itself of the dynamic-choice form `QID<d>_x<d>[_TEXT]`. -/
def loopStemSafe (k : List Char) : Bool :=
  ((matchLoop k).map (fun m => isTimerKey m || (matchDyn m).isNone)).getD true

theorem normalizeKeyL_idem (k : List Char) (h : loopStemSafe k = true) :
    normalizeKeyL (normalizeKeyL k) = normalizeKeyL k := by
  cases hl : matchLoop k with
  | none =>
    cases hd : matchDyn k with
    | none => simp [normalizeKeyL, hl, hd]
    | some m =>
      obtain ⟨ds1, ds2, rem, hm, h1, hd1, h2, hd2⟩ := matchDyn_some_shape hd
      have hml : matchLoop m = none := by
        rw [hm]; exact matchLoop_cons_none (by decide)
      have hmd : matchDyn m = none := by
        rw [hm]; exact matchDyn_output_fixed ds1 ds2 rem h1 hd1 h2 hd2
      simp [normalizeKeyL, hl, hd, hml, hmd]
  | some m =>
    unfold loopStemSafe at h
    rw [hl] at h
    simp only [Option.map_some', Option.getD_some] at h
    cases ht : isTimerKey m with
    | true => simp [normalizeKeyL, hl, ht]
    | false =>
      rw [ht] at h
      simp only [Bool.false_or] at h
      have hmd : matchDyn m = none := Option.isNone_iff_eq_none.mp h
      obtain ⟨t, hm⟩ := matchLoop_some_shape hl
      have hml : matchLoop m = none := by
        rw [hm]; exact matchLoop_cons_none (by decide)
      simp [normalizeKeyL, hl, ht, hml, hmd]

/-- C4 (counterexample): normalization is not idempotent.  The loop
key `_1_QID5_x3` rewrites to `QID5_x3`, which a second application
further rewrites (via the dynamic-choice rule) to `QID5_3`. -/
theorem normalizeKey_not_idempotent :
    normalizeKey (normalizeKey "_1_QID5_x3") ≠ normalizeKey "_1_QID5_x3" := by
  decide

/-- C4 (amended): the normalization applied by `AddAnswer` is
idempotent on every key **except** loop-iteration keys whose rewritten
(non-timer) stem is itself of the dynamic-choice form
`QID<d>_x<d>[_TEXT]` — on those the second application also applies
the dynamic-choice rewrite. -/
theorem normalizeKey_idem_except (s : String) (h : loopStemSafe s.data = true) :
    normalizeKey (normalizeKey s) = normalizeKey s := by
  unfold normalizeKey
  have hdata : (String.mk (normalizeKeyL s.data)).data = normalizeKeyL s.data := rfl
  rw [hdata, normalizeKeyL_idem s.data h]

/-- Witness for the amended C4 at the loop key `_1_QID5`. -/
theorem normalizeKey_idem_except_witness :
    loopStemSafe ("_1_QID5" : String).data = true ∧
    normalizeKey (normalizeKey "_1_QID5") = normalizeKey "_1_QID5" :=
  ⟨by decide, normalizeKey_idem_except "_1_QID5" (by decide)⟩

/-! ## Claim C7 -/

/-- C7 (amended): for a question visited by the resolution pass (here
the one entry of `QuestionOrder`) that declares `DisplayedChoices` or
`SelectedChoices` dynamic choices: it receives a copy of the source's
choices and ordering flag exactly when it holds zero choices, and —
independently — a copy of the source's sub-questions exactly when it
holds zero sub-questions; any other dynamic-choice kind leaves the
question map untouched (and the pass never fails). -/
theorem addDynamicChoices_resolves (s : Survey) (qid : String) (dc : DynChoices)
    (ho : s.QuestionOrder = [qid])
    (hdc : (s.Questions qid).dynChoices = some dc) :
    ((dc.Type' = "DisplayedChoices" ∨ dc.Type' = "SelectedChoices") →
      (((s.Questions qid).choices = [] →
        (s.addDynamicChoices.Questions qid).choices = (s.Questions dc.Source).choices ∧
        (s.addDynamicChoices.Questions qid).orderedChoices =
          (s.Questions dc.Source).orderedChoices) ∧
       ((s.Questions qid).choices ≠ [] →
        (s.addDynamicChoices.Questions qid).choices = (s.Questions qid).choices ∧
        (s.addDynamicChoices.Questions qid).orderedChoices =
          (s.Questions qid).orderedChoices) ∧
       ((s.Questions qid).subQuestions = [] →
        (s.addDynamicChoices.Questions qid).subQuestions =
          (s.Questions dc.Source).subQuestions) ∧
       ((s.Questions qid).subQuestions ≠ [] →
        (s.addDynamicChoices.Questions qid).subQuestions =
          (s.Questions qid).subQuestions))) ∧
    (¬(dc.Type' = "DisplayedChoices" ∨ dc.Type' = "SelectedChoices") →
      s.addDynamicChoices.Questions = s.Questions) := by
  have hfold : s.addDynamicChoices.Questions = addDynamicChoicesStep s.Questions qid := by
    simp [Survey.addDynamicChoices, ho]
  constructor
  · intro htype
    rw [hfold]
    simp only [addDynamicChoicesStep, hdc]
    rw [if_pos htype]
    simp only [updateQ, if_pos, eq_self_iff_true, if_true]
    refine ⟨fun hc => ?_, fun hc => ?_, fun hsq => ?_, fun hsq => ?_⟩ <;>
      by_cases hc2 : (s.Questions qid).choices = [] <;>
      by_cases hsq2 : (s.Questions qid).subQuestions = [] <;>
      simp_all [List.length_eq_zero]
  · intro htype
    rw [hfold]
    simp only [addDynamicChoicesStep, hdc]
    rw [if_neg htype]

def cA : Choice := ⟨"1", "A", "", false⟩

def cS : Choice := ⟨"2", "S", "", false⟩

def cT : Choice := ⟨"3", "T", "", false⟩

def qSrc7 : Question :=
  ⟨"QS", QType.SingleChoice, [cA], [cT], [], true, none, [], fun _ => [], "col_factor()"⟩

def qDep7 : Question :=
  ⟨"QA", QType.SingleChoice, [], [cS], [], false,
    some ⟨"QS", "DisplayedChoices"⟩, [], fun _ => [], "col_factor()"⟩

def s7 : Survey := ⟨["QA"], fun id => if id = "QA" then qDep7 else qSrc7, []⟩

/-- C7 (counterexample): `QA` declares `DisplayedChoices` from `QS`
and holds zero choices, but its *sub-questions* are non-empty, so the
pass copies the choices and ordering flag while leaving `QA`'s own
sub-questions (`[cS]`) in place — it does not receive the source's
`[cT]` as the claim requires. -/
theorem addDynamicChoices_keeps_own_subquestions :
    ((s7.addDynamicChoices).Questions "QA").choices = [cA] ∧
    ((s7.addDynamicChoices).Questions "QA").orderedChoices = true ∧
    ((s7.addDynamicChoices).Questions "QA").subQuestions = [cS] ∧
    (s7.Questions "QS").subQuestions = [cT] ∧
    ([cS] : List Choice) ≠ [cT] :=
  ⟨rfl, rfl, rfl, rfl, by decide⟩

/-- Witness for the amended C7 at the concrete survey `s7`. -/
theorem addDynamicChoices_resolves_witness :
    ((("DisplayedChoices" : String) = "DisplayedChoices" ∨
        ("DisplayedChoices" : String) = "SelectedChoices") →
      (((s7.Questions "QA").choices = [] →
        (s7.addDynamicChoices.Questions "QA").choices = (s7.Questions "QS").choices ∧
        (s7.addDynamicChoices.Questions "QA").orderedChoices =
          (s7.Questions "QS").orderedChoices) ∧
       ((s7.Questions "QA").choices ≠ [] →
        (s7.addDynamicChoices.Questions "QA").choices = (s7.Questions "QA").choices ∧
        (s7.addDynamicChoices.Questions "QA").orderedChoices =
          (s7.Questions "QA").orderedChoices) ∧
       ((s7.Questions "QA").subQuestions = [] →
        (s7.addDynamicChoices.Questions "QA").subQuestions =
          (s7.Questions "QS").subQuestions) ∧
       ((s7.Questions "QA").subQuestions ≠ [] →
        (s7.addDynamicChoices.Questions "QA").subQuestions =
          (s7.Questions "QA").subQuestions))) ∧
    (¬(("DisplayedChoices" : String) = "DisplayedChoices" ∨
        ("DisplayedChoices" : String) = "SelectedChoices") →
      s7.addDynamicChoices.Questions = s7.Questions) :=
  addDynamicChoices_resolves s7 "QA" ⟨"QS", "DisplayedChoices"⟩ rfl rfl

/-! ## Claim C8 -/

theorem addAnswer_some_fields {r r' : Response} {id ans : String}
    (h : r.AddAnswer id ans = some r') :
    r'.ID = r.ID ∧ r'.Progress = r.Progress ∧ r'.Duration = r.Duration ∧
    r'.Finished = r.Finished ∧ r'.RecordedOn = r.RecordedOn := by
  simp only [Response.AddAnswer] at h
  by_cases hc : lookupD r.answers (normalizeKey id) "" ≠ "" ∧ ans ≠ ""
  · rw [if_pos hc] at h
    exact absurd h (by simp)
  · rw [if_neg hc] at h
    rw [← Option.some.inj h]
    exact ⟨rfl, rfl, rfl, rfl, rfl⟩

theorem addAnswers_fields : ∀ (es : List XElem) (r r' : Response),
    addAnswers r es = some r' →
      r'.ID = r.ID ∧ r'.Progress = r.Progress ∧ r'.Duration = r.Duration ∧
      r'.Finished = r.Finished ∧ r'.RecordedOn = r.RecordedOn
  | [], r, r', h => by
    rw [← Option.some.inj h]
    exact ⟨rfl, rfl, rfl, rfl, rfl⟩
  | e :: es, r, r', h => by
    simp only [addAnswers] at h
    cases ha : r.AddAnswer e.tag e.text with
    | none => rw [ha] at h; exact absurd h (by simp)
    | some r1 =>
      rw [ha] at h
      obtain ⟨h1, h2, h3, h4, h5⟩ := addAnswer_some_fields ha
      obtain ⟨g1, g2, g3, g4, g5⟩ := addAnswers_fields es r1 r' h
      exact ⟨g1.trans h1, g2.trans h2, g3.trans h3, g4.trans h4, g5.trans h5⟩

/-- The fixed fields of a parsed response. -/
def respFields (r : Response) : String × Int × Int × Bool × GoTime :=
  (r.ID, r.Progress, r.Duration, r.Finished, r.RecordedOn)

/-- The fixed fields extracted from a response element. -/
def elemFields (e : XElem) : String × Int × Int × Bool × GoTime :=
  (getStringElement "_recordId" e, getIntElement "progress" e,
    getIntElement "duration" e, getBoolElement "finished" e,
    getTimeElement "recordedDate" e)

theorem buildResponse_fields {e : XElem} {r : Response}
    (h : buildResponse e = some r) : respFields r = elemFields e := by
  unfold buildResponse at h
  obtain ⟨h1, h2, h3, h4, h5⟩ := addAnswers_fields e.children _ r h
  simp only [respFields, elemFields, h1, h2, h3, h4, h5]

theorem buildResponses_map_fields : ∀ (es : List XElem) (rs : List Response),
    buildResponses es = some rs → rs.map respFields = es.map elemFields
  | [], rs, h => by
    rw [← Option.some.inj h]
    rfl
  | e :: es, rs, h => by
    simp only [buildResponses] at h
    cases hb : buildResponse e with
    | none => rw [hb] at h; exact absurd h (by simp)
    | some r =>
      rw [hb] at h
      cases hbs : buildResponses es with
      | none => rw [hbs] at h; exact absurd h (by simp)
      | some rs' =>
        rw [hbs] at h
        rw [← Option.some.inj h]
        simp only [List.map_cons]
        rw [buildResponse_fields hb, buildResponses_map_fields es rs' hbs]

/-- C8 (amended): when `ReadXML` succeeds, the responses correspond
one-to-one, in document order, to the `Response` elements, each with
its fixed fields extracted from that element; a missing fixed field
**silently** yields the zero value — no log message is emitted for an
absent field — and never aborts; a present field whose scalar
conversion fails logs and yields the zero value for syntactically
malformed integers/booleans/timestamps — while a syntactically valid
but out-of-range integer logs and yields Go's saturated extreme
instead. -/
theorem readXML_tolerant_ordered (doc : List XElem) (root : XElem) (rs : List Response)
    (hroot : selectElement "Responses" doc = some root)
    (hok : readXML doc = ReadResult.ok rs) :
    rs.map respFields =
      (root.children.filter (fun e => e.tag == "Response")).map elemFields ∧
    (∀ (name : String) (e : XElem), selectElement name e.children = none →
      getStringElement name e = "" ∧ getIntElement name e = 0 ∧
      getBoolElement name e = false ∧ getTimeElement name e = zeroTime) ∧
    (∀ (name : String) (e : XElem) (v : XElem), selectElement name e.children = some v →
      (atoiGo v.text = (0, false) → getIntElement name e = 0) ∧
      (parseBoolGo v.text = (false, false) → getBoolElement name e = false) ∧
      (timeParseGo v.text = none → getTimeElement name e = zeroTime)) ∧
    (∀ (name : String) (e : XElem), selectElement name e.children = none →
      getIntElementLogs name e = false ∧ getBoolElementLogs name e = false ∧
      getTimeElementLogs name e = false) ∧
    (∀ (name : String) (e : XElem) (v : XElem), selectElement name e.children = some v →
      ((atoiGo v.text).2 = false → getIntElementLogs name e = true) ∧
      ((parseBoolGo v.text).2 = false → getBoolElementLogs name e = true) ∧
      (timeParseGo v.text = none → getTimeElementLogs name e = true)) := by
  refine ⟨?_, ?_, ?_, ?_, ?_⟩
  · unfold readXML at hok
    simp only [hroot] at hok
    cases hbs : buildResponses (root.children.filter (fun e => e.tag == "Response")) with
    | none =>
      simp only [hbs] at hok
      exact absurd hok (by simp)
    | some rs' =>
      simp only [hbs, ReadResult.ok.injEq] at hok
      rw [← hok]
      exact buildResponses_map_fields _ rs' hbs
  · intro name e hnone
    refine ⟨?_, ?_, ?_, ?_⟩ <;> simp [getStringElement, getIntElement,
      getBoolElement, getTimeElement, hnone]
  · intro name e v hsome
    refine ⟨fun ha => ?_, fun hb => ?_, fun ht => ?_⟩
    · simp [getIntElement, hsome, ha]
    · simp [getBoolElement, hsome, hb]
    · simp [getTimeElement, hsome, ht]
  · intro name e hnone
    refine ⟨?_, ?_, ?_⟩ <;> simp [getIntElementLogs, getBoolElementLogs,
      getTimeElementLogs, hnone]
  · intro name e v hsome
    refine ⟨fun ha => ?_, fun hb => ?_, fun ht => ?_⟩
    · simp [getIntElementLogs, hsome, ha]
    · simp [getBoolElementLogs, hsome, hb]
    · simp [getTimeElementLogs, hsome, ht]

def eOverflow : XElem := ⟨"Response", "", [⟨"progress", "99999999999999999999", []⟩]⟩

def docOverflow : List XElem := [⟨"Responses", "", [eOverflow]⟩]

/-- C8 (counterexample): `progress` holding a syntactically valid but
out-of-range number is a failed conversion (`Atoi` returns an error,
which the code logs), yet the stored value is the saturated
`9223372036854775807`, not the zero value the claim requires. -/
theorem readXML_overflow_not_zero :
    (atoiGo "99999999999999999999").2 = false ∧
    getIntElementLogs "progress" eOverflow = true ∧
    getIntElement "progress" eOverflow = 9223372036854775807 ∧
    (buildResponse eOverflow).map Response.Progress = some 9223372036854775807 ∧
    (9223372036854775807 : Int) ≠ 0 :=
  ⟨by decide, by decide, by decide, by decide, by decide⟩

def rootW : XElem :=
  ⟨"Responses", "",
    [⟨"Response", "", [⟨"_recordId", "R_1", []⟩, ⟨"progress", "100", []⟩]⟩,
     ⟨"Response", "", [⟨"_recordId", "R_2", []⟩, ⟨"duration", "abc", []⟩]⟩]⟩

def docW : List XElem := [rootW]

def rsW : List Response :=
  [⟨"R_1", 100, 0, false, zeroTime, [("_recordId", "R_1"), ("progress", "100")]⟩,
   ⟨"R_2", 0, 0, false, zeroTime, [("_recordId", "R_2"), ("duration", "abc")]⟩]

/-- Witness for the amended C8 at a two-response document (one
response with a malformed `duration`, both missing most fields). -/
theorem readXML_tolerant_ordered_witness :
    selectElement "Responses" docW = some rootW ∧
    readXML docW = ReadResult.ok rsW ∧
    rsW.map respFields =
      (rootW.children.filter (fun e => e.tag == "Response")).map elemFields :=
  ⟨rfl, rfl, (readXML_tolerant_ordered docW rootW rsW rfl rfl).1⟩

/-! ## Claim C10 -/

/-- C10: `ReadXML` on a parsed document with no top-level `Responses`
element dereferences the nil result of `SelectElement` — a panic, not
an error return. -/
theorem readXML_panics_without_responses_root (doc : List XElem)
    (h : ∀ e ∈ doc, e.tag ≠ "Responses") :
    readXML doc = ReadResult.panic := by
  have hsel : selectElement "Responses" doc = none := by
    apply List.find?_eq_none.mpr
    intro e he
    simpa using h e he
  simp [readXML, hsel]

def docNoRoot : List XElem := [⟨"Result", "", []⟩]

/-- Witness for C10 at a one-element document whose root is `Result`. -/
theorem readXML_panics_without_responses_root_witness :
    (∀ e ∈ docNoRoot, e.tag ≠ "Responses") ∧
    readXML docNoRoot = ReadResult.panic :=
  ⟨by decide, readXML_panics_without_responses_root docNoRoot (by decide)⟩

end Libsp
